import Mathlib

/-!
iot-reflector: the record filtering policy and the relay loop of `main.go`

A shallow embedding of `src/main.go`.  Bytes are natural numbers, Go slices are
lists, a nil pointer or nil interface value is `none`.  The functions of the Go
standard library (`net.IP`, `strings.HasSuffix`) and of gopacket
(`layers.DNSType.String`) that `main.go` calls are embedded next to it, since the
filtering decisions are taken by them.
-/

namespace IotReflector

/-! ## Go standard library: `strings`, `net` -/

/-- Go `strings.HasSuffix(s, suffix)`:
`len(s) >= len(suffix) && s[len(s)-len(suffix):] == suffix`, on byte strings. -/
def HasSuffix (s suffix : List Nat) : Bool :=
  decide (suffix.length ≤ s.length) && decide (s.drop (s.length - suffix.length) = suffix)

/-- Go conversion of a string literal to its bytes (ASCII literals only are used). -/
def bytesOf (s : String) : List Nat :=
  s.toList.map Char.toNat

/-- Go `net.IPv4len`. -/
def IPv4len : Nat := 4

/-- Go `net.IPv6len`. -/
def IPv6len : Nat := 16

/-- Go `net.v4InV6Prefix`. -/
def v4InV6Prefix : List Nat := [0, 0, 0, 0, 0, 0, 0, 0, 0, 0, 0xff, 0xff]

/-- Go `ip[i]` on a byte slice; the callers below check the length first. -/
def byteAt (ip : List Nat) (i : Nat) : Nat :=
  ip.getD i 0

/-- Go `net.IP.To4`: the 4-byte form of an IPv4 address, also of an IPv4-mapped
16-byte address; `none` is Go's nil. -/
def To4 (ip : List Nat) : Option (List Nat) :=
  if ip.length = IPv4len then some ip
  else if ip.length = IPv6len ∧ (ip.take 10).all (fun b => b == 0)
      ∧ byteAt ip 10 = 0xff ∧ byteAt ip 11 = 0xff then
    some ((ip.drop 12).take 4)
  else none

/-- Go `net.IP.To16`: the 16-byte form; `none` is Go's nil. -/
def To16 (ip : List Nat) : Option (List Nat) :=
  if ip.length = IPv4len then
    some (v4InV6Prefix ++ [byteAt ip 0, byteAt ip 1, byteAt ip 2, byteAt ip 3])
  else if ip.length = IPv6len then some ip
  else none

/-- Go `net.IP.IsLinkLocalUnicast`. -/
def IsLinkLocalUnicast (ip : List Nat) : Bool :=
  match To4 ip with
  | some ip4 => byteAt ip4 0 == 169 && byteAt ip4 1 == 254
  | none =>
    decide (ip.length = IPv6len) && byteAt ip 0 == 0xfe && (byteAt ip 1 &&& 0xc0) == 0x80

/-! ## gopacket `layers`: DNS types and records -/

/-- The gopacket type `layers.DNSType` (a uint16). -/
abbrev DNSType := Nat

def DNSTypeA : DNSType := 1
def DNSTypeNS : DNSType := 2
def DNSTypeMD : DNSType := 3
def DNSTypeMF : DNSType := 4
def DNSTypeCNAME : DNSType := 5
def DNSTypeSOA : DNSType := 6
def DNSTypeMB : DNSType := 7
def DNSTypeMG : DNSType := 8
def DNSTypeMR : DNSType := 9
def DNSTypeNULL : DNSType := 10
def DNSTypeWKS : DNSType := 11
def DNSTypePTR : DNSType := 12
def DNSTypeHINFO : DNSType := 13
def DNSTypeMINFO : DNSType := 14
def DNSTypeMX : DNSType := 15
def DNSTypeTXT : DNSType := 16
def DNSTypeAAAA : DNSType := 28
def DNSTypeSRV : DNSType := 33
def DNSTypeOPT : DNSType := 41
def DNSTypeURI : DNSType := 256

/-- The gopacket method `layers.DNSType.String`: a switch over the known type
constants whose default case returns "Unknown". -/
def DNSType.String (dt : DNSType) : String :=
  if dt = DNSTypeA then "A"
  else if dt = DNSTypeNS then "NS"
  else if dt = DNSTypeMD then "MD"
  else if dt = DNSTypeMF then "MF"
  else if dt = DNSTypeCNAME then "CNAME"
  else if dt = DNSTypeSOA then "SOA"
  else if dt = DNSTypeMB then "MB"
  else if dt = DNSTypeMG then "MG"
  else if dt = DNSTypeMR then "MR"
  else if dt = DNSTypeNULL then "NULL"
  else if dt = DNSTypeWKS then "WKS"
  else if dt = DNSTypePTR then "PTR"
  else if dt = DNSTypeHINFO then "HINFO"
  else if dt = DNSTypeMINFO then "MINFO"
  else if dt = DNSTypeMX then "MX"
  else if dt = DNSTypeTXT then "TXT"
  else if dt = DNSTypeAAAA then "AAAA"
  else if dt = DNSTypeSRV then "SRV"
  else if dt = DNSTypeOPT then "OPT"
  else if dt = DNSTypeURI then "URI"
  else "Unknown"

/-- The gopacket struct `layers.DNSSRV`. -/
structure DNSSRV where
  Priority : Nat
  Weight : Nat
  Port : Nat
  Name : List Nat
  deriving DecidableEq, Repr

/-- The gopacket struct `layers.DNSResourceRecord`: header, raw RDATA and the
decoded values main.go reads (IP, PTR, TXTs, SRV) together with NS and CNAME.  The Go
field `Type` is written `Type_`, `Type` being reserved. -/
structure DNSResourceRecord where
  Name : List Nat
  Type_ : DNSType
  Class : Nat
  TTL : Nat
  DataLength : Nat
  Data : List Nat
  IP : List Nat
  NS : List Nat
  CNAME : List Nat
  PTR : List Nat
  TXTs : List (List Nat)
  SRV : DNSSRV
  deriving DecidableEq, Repr

/-- The gopacket struct `layers.DNSQuestion`. -/
structure DNSQuestion where
  Name : List Nat
  Type_ : DNSType
  Class : Nat
  deriving DecidableEq, Repr

/-- The gopacket struct `layers.DNS`: the header fields and the four entry lists. -/
structure DNS where
  ID : Nat
  QR : Bool
  OpCode : Nat
  AA : Bool
  TC : Bool
  RD : Bool
  RA : Bool
  Z : Nat
  ResponseCode : Nat
  QDCount : Nat
  ANCount : Nat
  NSCount : Nat
  ARCount : Nat
  Questions : List DNSQuestion
  Answers : List DNSResourceRecord
  Authorities : List DNSResourceRecord
  Additionals : List DNSResourceRecord
  deriving DecidableEq, Repr

/-! ## `main.go`: the three helper functions -/

/-- The function `isLinkLocalIPv6` of main.go:
`ip.To16() != nil && ip.IsLinkLocalUnicast()`. -/
def isLinkLocalIPv6 (ip : List Nat) : Bool :=
  (To16 ip).isSome && IsLinkLocalUnicast ip

/-- The string literal that `filterOutLinkLocalAAAAAndPTR` passes to
`strings.HasSuffix`, as written in main.go. -/
def ptrSuffixLiteral : String := "0.8.E.F.ip6.arpa"

/-- The function `filterOutLinkLocalAAAAAndPTR` of main.go: a loop over `records`
that appends to `filteredRecords` every record reaching the end of the body; the two
`continue` statements skip the append. -/
def filterOutLinkLocalAAAAAndPTR (records : List DNSResourceRecord) :
    List DNSResourceRecord :=
  records.foldl
    (fun filteredRecords record =>
      if record.Type_ = DNSTypeAAAA ∧ isLinkLocalIPv6 record.IP = true then
        filteredRecords
      else if record.Type_ = DNSTypePTR
          ∧ HasSuffix record.Name (bytesOf ptrSuffixLiteral) = true then
        filteredRecords
      else
        filteredRecords ++ [record])
    []

/-- The function `filterOutUnknownType` of main.go: a loop over `records` that
appends a record when `record.Type.String() != "Unknown"`. -/
def filterOutUnknownType (records : List DNSResourceRecord) : List DNSResourceRecord :=
  records.foldl
    (fun filteredRecords record =>
      if DNSType.String record.Type_ ≠ "Unknown" then filteredRecords ++ [record]
      else filteredRecords)
    []

/-- The filtering step of `main` (lines 100-108) on a decoded DNS layer: the six
assignments to `dns.Answers`, `dns.Authorities` and `dns.Additionals`, in order. -/
def filterDNS (dns : DNS) : DNS :=
  let dns := { dns with Answers := filterOutLinkLocalAAAAAndPTR dns.Answers }
  let dns := { dns with Authorities := filterOutLinkLocalAAAAAndPTR dns.Authorities }
  let dns := { dns with Additionals := filterOutLinkLocalAAAAAndPTR dns.Additionals }
  let dns := { dns with Answers := filterOutUnknownType dns.Answers }
  let dns := { dns with Authorities := filterOutUnknownType dns.Authorities }
  let dns := { dns with Additionals := filterOutUnknownType dns.Additionals }
  dns

/-- What `main` makes of one record section: `filterOutLinkLocalAAAAAndPTR` and then
`filterOutUnknownType` on its result. -/
def filterSection (records : List DNSResourceRecord) : List DNSResourceRecord :=
  filterOutUnknownType (filterOutLinkLocalAAAAAndPTR records)

/-! ## `main.go`: one iteration of the processing loop -/

/-- A gopacket `Packet` as `main` observes it: `applicationLayer` is the payload of
`ApplicationLayer()` (`none` when that is nil) and `dnsLayer` is
`Layer(layers.LayerTypeDNS)` (`none` when that is nil). -/
structure Packet where
  applicationLayer : Option (List Nat)
  dnsLayer : Option DNS
  deriving DecidableEq, Repr

/-- Modelled from the spec: the struct type `bonjourPacket`, declared outside main.go;
the spec describes it as a decoded frame plus its originating source address, and
`main` reads its fields `packet` and `srcMAC` (the value `*bonjourPacket.srcMAC`). -/
structure BonjourPacket where
  packet : Packet
  srcMAC : List Nat
  deriving DecidableEq, Repr

/-- An open egress handle (`*pcap.Handle`), identified by its interface name. -/
structure Handle where
  device : String
  deriving DecidableEq, Repr

/-- One statement `go sendBonjourPacket(sender, &bonjourPacket, *bonjourPacket.srcMAC)`
that the loop executed: its three arguments, the second one by the value it points to
when the statement runs. -/
structure SendAttempt where
  sender : Handle
  bonjourPacket : BonjourPacket
  srcMAC : List Nat
  deriving DecidableEq, Repr

/-- Lines 85-161 of `main`: what the body of the processing loop does to
`bonjourPacket` before the sends.  `NewPacket payload` stands for
`gopacket.NewPacket(payload, layers.LayerTypeDNS, gopacket.Default)`.  The writes to
standard output are left out. -/
def decodeAndFilter (NewPacket : List Nat → Packet) (bonjourPacket : BonjourPacket) :
    BonjourPacket :=
  match bonjourPacket.packet.applicationLayer with
  | some payload =>
    let packet := NewPacket payload
    let packet :=
      match packet.dnsLayer with
      | some dns => { packet with dnsLayer := some (filterDNS dns) }
      | none => packet
    { bonjourPacket with packet := packet }
  | none => bonjourPacket

/-- Lines 162-164 of `main`: the loop over `senders`, which starts one
`sendBonjourPacket` per sender. -/
def sendToAll (senders : List Handle) (bonjourPacket : BonjourPacket) : List SendAttempt :=
  senders.foldl
    (fun started sender => started ++ [⟨sender, bonjourPacket, bonjourPacket.srcMAC⟩])
    []

/-- One iteration of the processing loop of `main` (lines 81-166): the send attempts
it issues for one `bonjourPacket` received from the channel. -/
def processBonjourPacket (NewPacket : List Nat → Packet) (senders : List Handle)
    (bonjourPacket : BonjourPacket) : List SendAttempt :=
  sendToAll senders (decodeAndFilter NewPacket bonjourPacket)

/-! ## The one-pass filter of the specification -/

/-- The first test of the code: an AAAA record whose address `isLinkLocalIPv6` accepts. -/
def isLinkLocalAAAA (record : DNSResourceRecord) : Bool :=
  decide (record.Type_ = DNSTypeAAAA) && isLinkLocalIPv6 record.IP

/-- The second test of the code: a PTR record whose name ends in the suffix literal. -/
def isLinkLocalPTR (record : DNSResourceRecord) : Bool :=
  decide (record.Type_ = DNSTypePTR) && HasSuffix record.Name (bytesOf ptrSuffixLiteral)

/-- The third test of the code: a record whose type renders as "Unknown". -/
def isUnknownType (record : DNSResourceRecord) : Bool :=
  decide (DNSType.String record.Type_ = "Unknown")

/-- The single pass the specification describes: a record is kept exactly when none
of the three tests holds for it. -/
def onePassFilter (records : List DNSResourceRecord) : List DNSResourceRecord :=
  records.filter
    (fun record => !isLinkLocalAAAA record && !isLinkLocalPTR record && !isUnknownType record)

/-- ASCII lower-casing of one byte, for the case-insensitive comparison of the
specification. -/
def toLowerASCII (b : Nat) : Nat :=
  if 65 ≤ b ∧ b ≤ 90 then b + 32 else b

/-- The suffix test of the specification: `name` ends with `suffix`, compared
case-insensitively. -/
def endsWithIgnoreCase (name suffix : List Nat) : Bool :=
  HasSuffix (name.map toLowerASCII) (suffix.map toLowerASCII)

/-- The range fe80::/10 as the specification gives it: a 16-byte address whose first
byte is 0xfe and whose second byte has 10 as its top two bits. -/
def inFe80Slash10 (ip : List Nat) : Bool :=
  decide (ip.length = 16) && byteAt ip 0 == 0xfe && byteAt ip 1 / 64 == 2

/-! ## Sample data -/

/-- A record with the given name, type and address and no other content. -/
def mkRecord (name : String) (type : DNSType) (ip : List Nat) : DNSResourceRecord :=
  { Name := bytesOf name, Type_ := type, Class := 1, TTL := 120, DataLength := ip.length,
    Data := ip, IP := ip, NS := [], CNAME := [], PTR := [], TXTs := [],
    SRV := ⟨0, 0, 0, []⟩ }

/-- The address fe80::1. -/
def ipFe80_1 : List Nat := [0xfe, 0x80, 0, 0, 0, 0, 0, 0, 0, 0, 0, 0, 0, 0, 0, 1]

/-- The IPv4-mapped address ::ffff:169.254.1.1. -/
def ipMapped169 : List Nat := [0, 0, 0, 0, 0, 0, 0, 0, 0, 0, 0xff, 0xff, 169, 254, 1, 1]

/-- An AAAA record for fe80::1. -/
def recAAAALinkLocal : DNSResourceRecord := mkRecord "x.local" DNSTypeAAAA ipFe80_1

/-- An A record for 10.0.0.5. -/
def recA : DNSResourceRecord := mkRecord "x.local" DNSTypeA [10, 0, 0, 5]

/-- A PTR record named "1.0.8.e.f.ip6.arpa", in lower case. -/
def recPTRLower : DNSResourceRecord := mkRecord "1.0.8.e.f.ip6.arpa" DNSTypePTR []

/-- A PTR record named "1.0.8.E.F.ip6.arpa", in upper case. -/
def recPTRUpper : DNSResourceRecord := mkRecord "1.0.8.E.F.ip6.arpa" DNSTypePTR []

/-- An SRV record. -/
def recSRV : DNSResourceRecord := mkRecord "z.local" DNSTypeSRV []

/-- An AAAA record for ::ffff:169.254.1.1. -/
def recAAAAMapped : DNSResourceRecord := mkRecord "x.local" DNSTypeAAAA ipMapped169

/-- A record of type 65 (HTTPS), which `DNSType.String` does not know. -/
def recUnknown : DNSResourceRecord := mkRecord "x.local" 65 [1, 2, 3]

/-- The Answers section of the example in the specification. -/
def exampleAnswers : List DNSResourceRecord :=
  [recAAAALinkLocal, recA, recPTRLower, recSRV]

/-- The source address AA:BB:CC:DD:EE:FF. -/
def macAABB : List Nat := [0xaa, 0xbb, 0xcc, 0xdd, 0xee, 0xff]

/-- A DNS message with the Answers of the example and empty other sections. -/
def exampleDNS : DNS :=
  { ID := 0, QR := true, OpCode := 0, AA := true, TC := false, RD := false, RA := false,
    Z := 0, ResponseCode := 0, QDCount := 0, ANCount := 4, NSCount := 0, ARCount := 0,
    Questions := [], Answers := exampleAnswers, Authorities := [], Additionals := [] }

/-- A decoder that finds the example message in every payload. -/
def newPacketDNS (_payload : List Nat) : Packet :=
  { applicationLayer := none, dnsLayer := some exampleDNS }

/-- A decoder that finds no DNS layer in any payload. -/
def newPacketNoDNS (_payload : List Nat) : Packet :=
  { applicationLayer := none, dnsLayer := none }

/-- A captured frame without application layer. -/
def frameNoApplicationLayer : BonjourPacket :=
  { packet := { applicationLayer := none, dnsLayer := none }, srcMAC := macAABB }

/-- A captured frame with a three-byte application payload. -/
def frameWithPayload : BonjourPacket :=
  { packet := { applicationLayer := some [1, 2, 3], dnsLayer := none }, srcMAC := macAABB }

/-- Two egress handles. -/
def twoSenders : List Handle := [⟨"eth1"⟩, ⟨"eth2"⟩]

/-! ## The loops as list operations -/

/-- A loop that appends the elements passing a test computes `List.filter`. -/
theorem foldl_append_eq_filter {α : Type} (keep : α → Bool) (step : List α → α → List α)
    (hstep : ∀ acc x, step acc x = if keep x = true then acc ++ [x] else acc)
    (l init : List α) : l.foldl step init = init ++ l.filter keep := by
  induction l generalizing init with
  | nil => simp
  | cons x xs ih =>
    rw [List.foldl_cons, ih, hstep]
    by_cases h : keep x = true
    · simp [h]
    · simp [h]

/-- The first pass keeps the records that fail both of its tests. -/
theorem filterOutLinkLocalAAAAAndPTR_eq_filter (records : List DNSResourceRecord) :
    filterOutLinkLocalAAAAAndPTR records
      = records.filter (fun record => !isLinkLocalAAAA record && !isLinkLocalPTR record) := by
  unfold filterOutLinkLocalAAAAAndPTR
  rw [foldl_append_eq_filter
    (fun record => !isLinkLocalAAAA record && !isLinkLocalPTR record)]
  · simp
  · intro acc x
    by_cases h1 : x.Type_ = DNSTypeAAAA ∧ isLinkLocalIPv6 x.IP = true
    · simp [isLinkLocalAAAA, h1]
    · by_cases h2 : x.Type_ = DNSTypePTR ∧ HasSuffix x.Name (bytesOf ptrSuffixLiteral) = true
      · simp [isLinkLocalAAAA, isLinkLocalPTR, h1, h2]
      · have h1b : isLinkLocalAAAA x = false := by
          simpa [isLinkLocalAAAA] using h1
        have h2b : isLinkLocalPTR x = false := by
          simpa [isLinkLocalPTR] using h2
        simp [h1, h2, h1b, h2b]

/-- The second pass keeps the records whose type does not render as "Unknown". -/
theorem filterOutUnknownType_eq_filter (records : List DNSResourceRecord) :
    filterOutUnknownType records = records.filter (fun record => !isUnknownType record) := by
  unfold filterOutUnknownType
  rw [foldl_append_eq_filter (fun record => !isUnknownType record)]
  · simp
  · intro acc x
    by_cases h : DNSType.String x.Type_ = "Unknown"
    · simp [isUnknownType, h]
    · simp [isUnknownType, h]

/-- The two passes in sequence keep the records that fail all three tests. -/
theorem filterSection_eq_filter (records : List DNSResourceRecord) :
    filterSection records
      = records.filter
          (fun record =>
            !isLinkLocalAAAA record && !isLinkLocalPTR record && !isUnknownType record) := by
  unfold filterSection
  rw [filterOutLinkLocalAAAAAndPTR_eq_filter, filterOutUnknownType_eq_filter,
    List.filter_filter]
  congr 1
  funext record
  cases isLinkLocalAAAA record <;> cases isLinkLocalPTR record <;>
    cases isUnknownType record <;> rfl

/-- Membership in a filtered section. -/
theorem mem_filterSection (records : List DNSResourceRecord) (r : DNSResourceRecord) :
    r ∈ filterSection records ↔
      r ∈ records ∧ isLinkLocalAAAA r = false ∧ isLinkLocalPTR r = false
        ∧ isUnknownType r = false := by
  rw [filterSection_eq_filter, List.mem_filter]
  cases isLinkLocalAAAA r <;> cases isLinkLocalPTR r <;> cases isUnknownType r <;> simp

/-- The filtering step of `main` replaces each section by its filtered section and
leaves the other fields alone. -/
theorem filterDNS_eq (dns : DNS) :
    filterDNS dns
      = { dns with
          Answers := filterSection dns.Answers
          Authorities := filterSection dns.Authorities
          Additionals := filterSection dns.Additionals } := by
  rfl

/-- Filtering a section twice is filtering it once. -/
theorem filterSection_idem (records : List DNSResourceRecord) :
    filterSection (filterSection records) = filterSection records := by
  rw [filterSection_eq_filter (filterSection records), filterSection_eq_filter records,
    List.filter_filter]
  congr 1
  funext record
  cases isLinkLocalAAAA record <;> cases isLinkLocalPTR record <;>
    cases isUnknownType record <;> rfl

/-- The send loop starts one attempt per sender, in the order of the list. -/
theorem sendToAll_eq_map (senders : List Handle) (bonjourPacket : BonjourPacket) :
    sendToAll senders bonjourPacket
      = senders.map (fun sender => ⟨sender, bonjourPacket, bonjourPacket.srcMAC⟩) := by
  unfold sendToAll
  suffices h : ∀ init : List SendAttempt,
      senders.foldl
          (fun started sender => started ++ [⟨sender, bonjourPacket, bonjourPacket.srcMAC⟩])
          init
        = init ++ senders.map (fun sender => ⟨sender, bonjourPacket, bonjourPacket.srcMAC⟩) by
    simpa using h []
  induction senders with
  | nil => simp
  | cons x xs ih =>
    intro init
    rw [List.foldl_cons, ih]
    simp

/-- The body of the loop never changes the source address of the packet. -/
theorem decodeAndFilter_srcMAC (NewPacket : List Nat → Packet) (bonjourPacket : BonjourPacket) :
    (decodeAndFilter NewPacket bonjourPacket).srcMAC = bonjourPacket.srcMAC := by
  unfold decodeAndFilter
  cases h : bonjourPacket.packet.applicationLayer <;> simp

/-- On a frame whose payload decodes to a DNS layer the body of the loop leaves the
filtered DNS layer in the packet. -/
theorem decodeAndFilter_dnsLayer (NewPacket : List Nat → Packet) (bonjourPacket : BonjourPacket)
    (payload : List Nat) (dns : DNS)
    (hApp : bonjourPacket.packet.applicationLayer = some payload)
    (hDNS : (NewPacket payload).dnsLayer = some dns) :
    (decodeAndFilter NewPacket bonjourPacket).packet.dnsLayer = some (filterDNS dns) := by
  unfold decodeAndFilter
  simp [hApp, hDNS]

/-- The senders of the attempts of one iteration are the configured senders. -/
theorem processBonjourPacket_senders (NewPacket : List Nat → Packet) (senders : List Handle)
    (bonjourPacket : BonjourPacket) :
    (processBonjourPacket NewPacket senders bonjourPacket).map (fun a => a.sender)
      = senders := by
  unfold processBonjourPacket
  rw [sendToAll_eq_map, List.map_map]
  simp [Function.comp_def]

/-- A byte whose top two bits are 10 has `b & 0xc0 == 0x80`. -/
theorem land_c0_of_top_bits (b : Nat) (h : b / 64 = 2) : b &&& 0xc0 = 0x80 := by
  have h1 : 128 ≤ b := by omega
  have h2 : b < 192 := by omega
  interval_cases b <;> decide

/-- Every address of fe80::/10 is accepted by `isLinkLocalIPv6`. -/
theorem isLinkLocalIPv6_of_inFe80Slash10 (ip : List Nat) (h : inFe80Slash10 ip = true) :
    isLinkLocalIPv6 ip = true := by
  simp only [inFe80Slash10, Bool.and_eq_true, decide_eq_true_eq, beq_iff_eq] at h
  obtain ⟨⟨hlen, h0⟩, h1⟩ := h
  match ip, hlen with
  | a :: b :: tl, hlen =>
    simp only [byteAt, List.getD_cons_zero, List.getD_cons_succ] at h0 h1
    have hb := land_c0_of_top_bits b h1
    subst h0
    simp only [List.length_cons] at hlen
    have htl : tl.length = 14 := by omega
    simp [isLinkLocalIPv6, To16, To4, IsLinkLocalUnicast, IPv4len, IPv6len, byteAt, htl, hb]

/-! ## The claims -/

/-- C1: on the Answers of the specification's example the PTR record named
"1.0.8.e.f.ip6.arpa", whose name ends case-insensitively in "0.8.e.f.ip6.arpa", is
still present after `filterOutLinkLocalAAAAAndPTR` and `filterOutUnknownType`: the
section filters to [A, PTR, SRV] and not to [A, SRV]. -/
theorem lowercase_ptr_survives_filter :
    recPTRLower.Type_ = DNSTypePTR
      ∧ endsWithIgnoreCase recPTRLower.Name (bytesOf "0.8.e.f.ip6.arpa") = true
      ∧ recPTRLower ∈ exampleAnswers
      ∧ filterSection exampleAnswers = [recA, recPTRLower, recSRV]
      ∧ recPTRLower ∈ filterSection exampleAnswers := by
  decide

/-- C2, as stated, fails: a frame without application layer, and a frame whose
payload has no DNS layer, each cause a send attempt on a configured sender. -/
theorem drop_without_dns_refuted :
    ¬ (∀ (NewPacket : List Nat → Packet) (senders : List Handle) (bp : BonjourPacket),
        bp.packet.applicationLayer = none →
          (processBonjourPacket NewPacket senders bp).length = 0)
      ∧ ¬ (∀ (NewPacket : List Nat → Packet) (senders : List Handle) (bp : BonjourPacket)
          (payload : List Nat),
        bp.packet.applicationLayer = some payload → (NewPacket payload).dnsLayer = none →
          (processBonjourPacket NewPacket senders bp).length = 0) := by
  constructor
  · intro h
    have h2 := h newPacketNoDNS twoSenders frameNoApplicationLayer rfl
    revert h2
    decide
  · intro h
    have h2 := h newPacketNoDNS twoSenders frameWithPayload [1, 2, 3] rfl rfl
    revert h2
    decide

/-- C2, amended: when the frame has no application-layer payload, or its payload does
not decode to a DNS layer, one iteration of the loop still issues one send attempt per
configured sender, in the order of the list; it issues none only when no sender is
configured. -/
theorem undecoded_frame_sent_to_every_sender (NewPacket : List Nat → Packet)
    (senders : List Handle) (bp : BonjourPacket)
    (_h : bp.packet.applicationLayer = none
      ∨ ∃ payload, bp.packet.applicationLayer = some payload
          ∧ (NewPacket payload).dnsLayer = none) :
    (processBonjourPacket NewPacket senders bp).map (fun a => a.sender) = senders
      ∧ (processBonjourPacket NewPacket senders bp).length = senders.length
      ∧ ((processBonjourPacket NewPacket senders bp).length = 0 ↔ senders = []) := by
  have hs := processBonjourPacket_senders NewPacket senders bp
  have hl : (processBonjourPacket NewPacket senders bp).length = senders.length := by
    have := congrArg List.length hs
    simpa using this
  refine ⟨hs, hl, ?_⟩
  rw [hl]
  exact List.length_eq_zero

/-- Witness of the amended C2: a frame without application layer and two senders. -/
theorem undecoded_frame_sent_to_every_sender_witness :
    (frameNoApplicationLayer.packet.applicationLayer = none
      ∨ ∃ payload, frameNoApplicationLayer.packet.applicationLayer = some payload
          ∧ (newPacketNoDNS payload).dnsLayer = none)
    ∧ (processBonjourPacket newPacketNoDNS twoSenders frameNoApplicationLayer).map
        (fun a => a.sender) = twoSenders
    ∧ (processBonjourPacket newPacketNoDNS twoSenders frameNoApplicationLayer).length
        = twoSenders.length
    ∧ ((processBonjourPacket newPacketNoDNS twoSenders frameNoApplicationLayer).length = 0
        ↔ twoSenders = []) :=
  ⟨Or.inl rfl,
    undecoded_frame_sent_to_every_sender newPacketNoDNS twoSenders frameNoApplicationLayer
      (Or.inl rfl)⟩

/-- C3: an AAAA record for the IPv4-mapped address ::ffff:169.254.1.1 has a recognized
type, is not a PTR record and has an address outside fe80::/10, and yet
`filterOutLinkLocalAAAAAndPTR` followed by `filterOutUnknownType` removes it, because
`isLinkLocalIPv6` accepts the address. -/
theorem mapped_ipv4_aaaa_dropped :
    DNSType.String recAAAAMapped.Type_ ≠ "Unknown"
      ∧ recAAAAMapped.Type_ = DNSTypeAAAA
      ∧ inFe80Slash10 recAAAAMapped.IP = false
      ∧ isLinkLocalIPv6 recAAAAMapped.IP = true
      ∧ recAAAAMapped ∈ [recA, recAAAAMapped]
      ∧ filterSection [recA, recAAAAMapped] = [recA]
      ∧ recAAAAMapped ∉ filterSection [recA, recAAAAMapped] := by
  decide

/-- C4: an AAAA record of a section whose 16-byte address lies in fe80::/10 (first
byte 0xfe, top two bits of the second byte 10) is absent from the section filtered by
`filterOutLinkLocalAAAAAndPTR` and then `filterOutUnknownType`. -/
theorem linklocal_aaaa_absent (records : List DNSResourceRecord) (r : DNSResourceRecord)
    (_hmem : r ∈ records) (hType : r.Type_ = DNSTypeAAAA)
    (hIP : inFe80Slash10 r.IP = true) :
    r ∉ filterSection records := by
  intro hin
  have h := ((mem_filterSection records r).1 hin).2.1
  have hll := isLinkLocalIPv6_of_inFe80Slash10 r.IP hIP
  simp [isLinkLocalAAAA, hType, hll] at h

/-- Witness of C4: the record AAAA fe80::1 of the example section. -/
theorem linklocal_aaaa_absent_witness :
    recAAAALinkLocal ∈ exampleAnswers ∧ recAAAALinkLocal.Type_ = DNSTypeAAAA
      ∧ inFe80Slash10 recAAAALinkLocal.IP = true
      ∧ recAAAALinkLocal ∉ filterSection exampleAnswers :=
  ⟨by decide, by decide, by decide,
    linklocal_aaaa_absent exampleAnswers recAAAALinkLocal (by decide) (by decide)
      (by decide)⟩

/-- C5: a record of a section whose type renders as "Unknown" is absent from the
filtered section, whatever its other fields are. -/
theorem unknown_type_absent (records : List DNSResourceRecord) (r : DNSResourceRecord)
    (_hmem : r ∈ records) (hType : DNSType.String r.Type_ = "Unknown") :
    r ∉ filterSection records := by
  intro hin
  have h := ((mem_filterSection records r).1 hin).2.2.2
  simp [isUnknownType, hType] at h

/-- Witness of C5: a record of type 65 between two other records. -/
theorem unknown_type_absent_witness :
    recUnknown ∈ [recPTRUpper, recUnknown, recA]
      ∧ DNSType.String recUnknown.Type_ = "Unknown"
      ∧ recUnknown ∉ filterSection [recPTRUpper, recUnknown, recA] :=
  ⟨by decide, by decide,
    unknown_type_absent [recPTRUpper, recUnknown, recA] recUnknown (by decide) (by decide)⟩

/-- C6: the filtering step is idempotent on messages: filtering a filtered message
returns the filtered message. -/
theorem filterDNS_idempotent (dns : DNS) : filterDNS (filterDNS dns) = filterDNS dns := by
  rw [filterDNS_eq (filterDNS dns), filterDNS_eq dns]
  simp only [filterSection_idem]

/-- C7: the filtered section is a subsequence of the input section, so its records are
input records in their input order. -/
theorem filterSection_sublist (records : List DNSResourceRecord) :
    (filterSection records).Sublist records
      ∧ ∀ r ∈ filterSection records, r ∈ records := by
  have h : (filterSection records).Sublist records := by
    rw [filterSection_eq_filter]
    exact List.filter_sublist records
  exact ⟨h, fun r hr => h.subset hr⟩

/-- C8: the filtering step changes only Answers, Authorities and Additionals; the ID,
the questions, the four header counts and the other header fields are unchanged, and
each filtered section is computed from the same section of the input alone. -/
theorem filterDNS_frame (dns : DNS) :
    (filterDNS dns).ID = dns.ID
      ∧ (filterDNS dns).Questions = dns.Questions
      ∧ (filterDNS dns).QDCount = dns.QDCount
      ∧ (filterDNS dns).ANCount = dns.ANCount
      ∧ (filterDNS dns).NSCount = dns.NSCount
      ∧ (filterDNS dns).ARCount = dns.ARCount
      ∧ filterDNS dns
          = { dns with
              Answers := filterSection dns.Answers
              Authorities := filterSection dns.Authorities
              Additionals := filterSection dns.Additionals }
      ∧ (filterDNS dns).Answers = filterSection dns.Answers
      ∧ (filterDNS dns).Authorities = filterSection dns.Authorities
      ∧ (filterDNS dns).Additionals = filterSection dns.Additionals :=
  ⟨rfl, rfl, rfl, rfl, rfl, rfl, rfl, rfl, rfl, rfl⟩

/-- C9: for a frame whose payload decodes to a DNS layer, one iteration of the loop
issues exactly one send attempt per configured sender, in the order of the list, and
each attempt is given the source MAC address of the captured frame (and a packet
holding the filtered DNS layer). -/
theorem dns_frame_sent_to_every_sender (NewPacket : List Nat → Packet)
    (senders : List Handle) (bp : BonjourPacket) (payload : List Nat) (dns : DNS)
    (hApp : bp.packet.applicationLayer = some payload)
    (hDNS : (NewPacket payload).dnsLayer = some dns) :
    (processBonjourPacket NewPacket senders bp).length = senders.length
      ∧ (processBonjourPacket NewPacket senders bp).map (fun a => a.sender) = senders
      ∧ ∀ a ∈ processBonjourPacket NewPacket senders bp,
          a.srcMAC = bp.srcMAC
            ∧ a.bonjourPacket.packet.dnsLayer = some (filterDNS dns) := by
  have hs := processBonjourPacket_senders NewPacket senders bp
  refine ⟨?_, hs, ?_⟩
  · have := congrArg List.length hs
    simpa using this
  · intro a ha
    unfold processBonjourPacket at ha
    rw [sendToAll_eq_map, List.mem_map] at ha
    obtain ⟨s, _, rfl⟩ := ha
    exact ⟨decodeAndFilter_srcMAC NewPacket bp,
      decodeAndFilter_dnsLayer NewPacket bp payload dns hApp hDNS⟩

/-- Witness of C9: a DNS frame from AA:BB:CC:DD:EE:FF and two senders. -/
theorem dns_frame_sent_to_every_sender_witness :
    frameWithPayload.packet.applicationLayer = some [1, 2, 3]
      ∧ (newPacketDNS [1, 2, 3]).dnsLayer = some exampleDNS
      ∧ (processBonjourPacket newPacketDNS twoSenders frameWithPayload).length = 2
      ∧ (processBonjourPacket newPacketDNS twoSenders frameWithPayload).map
          (fun a => a.sender) = twoSenders
      ∧ ∀ a ∈ processBonjourPacket newPacketDNS twoSenders frameWithPayload,
          a.srcMAC = macAABB
            ∧ a.bonjourPacket.packet.dnsLayer = some (filterDNS exampleDNS) :=
  ⟨rfl, rfl,
    dns_frame_sent_to_every_sender newPacketDNS twoSenders frameWithPayload [1, 2, 3]
      exampleDNS rfl rfl⟩

/-- C10: the two passes of the code equal the single pass that keeps a record exactly
when none of the three tests of the code holds, and the two passes commute. -/
theorem two_pass_eq_one_pass (records : List DNSResourceRecord) :
    filterOutUnknownType (filterOutLinkLocalAAAAAndPTR records) = onePassFilter records
      ∧ filterOutLinkLocalAAAAAndPTR (filterOutUnknownType records)
          = filterOutUnknownType (filterOutLinkLocalAAAAAndPTR records) := by
  constructor
  · exact filterSection_eq_filter records
  · rw [filterOutUnknownType_eq_filter records, filterOutLinkLocalAAAAAndPTR_eq_filter,
      filterOutLinkLocalAAAAAndPTR_eq_filter, filterOutUnknownType_eq_filter,
      List.filter_filter, List.filter_filter]
    congr 1
    funext record
    cases isLinkLocalAAAA record <;> cases isLinkLocalPTR record <;>
      cases isUnknownType record <;> rfl

end IotReflector
